import Mathlib

/-!
Verification development for the defaultconf repository.

This file gives a shallow embedding, in Lean 4, of the parts of the
defaultconf daemon that the checked properties talk about:

* `src/defaultconf/common.py` — the persisted candidate state
  (`Gateway`, `GatewaySelect`, `State`) and the policy evaluator
  (`DefaultConf.get_defaults`);
* `src/defaultconf/bsdnetlink.py` — the in-memory kernel mirror
  (`Link`, `LinkAddress`, `Route`, `NetTables`);
* `src/defaultconf/daemon.py` — the liveness test (`default_test`)
  and the reconciliation pass (`normalize_default`).

Modelling conventions:

* Python sets and dicts are modelled by lists (of elements, resp. of
  key/value pairs) carrying the iteration order; set update appends,
  set difference filters.  Dict keys are unique in every state the
  program constructs.
* Machine-level concerns (netlink sockets, threads, file locking) are
  outside the embedded fragment; the kernel-mutation layer is modelled
  as a list of emitted `RouteCmd` commands.
* Fallible Python code returns `Except PyErr`; `PyErr` names the
  exception class that CPython would raise at that program point.
* The Python stdlib codecs that the state file uses
  (`str`/`ipaddress.ip_address` on addresses, `json.dumps`/`json.loads`)
  are external bijective libraries; the JSON model `Json` keeps an
  address leaf structured (`Json.ip`) instead of reproducing the
  stdlib decimal/hex grammar, and dump/load of the model is the
  identity.  Timestamps (Python floats) are modelled as integers; no
  checked property depends on fractional timestamps.
-/

/-- Exception classes raised by the embedded Python fragments. -/
inductive PyErr
  | keyError
  | typeError
  | valueError
  | attributeError
  | notFound
deriving DecidableEq, Repr

/-- Address families used by the program (socket.AF_INET / socket.AF_INET6).
The spec restricts AddressFamily to {INET, INET6}; other members of the
Python socket.AddressFamily enum never occur in this program. -/
inductive AF
  | inet
  | inet6
deriving DecidableEq, Repr

/-- Python `af.name` on a socket.AddressFamily member. -/
def AF.name : AF → String
  | .inet => "AF_INET"
  | .inet6 => "AF_INET6"

/-- Python `socket.AddressFamily[s]` (raises KeyError on an unknown name,
modelled as `none`). -/
def AF.fromName (s : String) : Option AF :=
  if s = "AF_INET" then some .inet
  else if s = "AF_INET6" then some .inet6
  else none

/-- An ipaddress.IPv4Address / IPv6Address value: the version flag and the
numeric address value.  Addresses of different versions are unequal, as in
Python. -/
structure IPAddr where
  v6 : Bool
  val : Nat
deriving DecidableEq, Repr

/-- An ipaddress.IPv4Network / IPv6Network value (host bits zero). -/
structure IPNet where
  v6 : Bool
  netval : Nat
  prefixlen : Nat
deriving DecidableEq, Repr

/-- Python `addr in network` membership test. -/
def IPNet.containsAddr (n : IPNet) (a : IPAddr) : Bool :=
  let bits : Nat := if n.v6 then 128 else 32
  a.v6 == n.v6 && (a.val / 2 ^ (bits - n.prefixlen) == n.netval / 2 ^ (bits - n.prefixlen))

/-- Insertion into a Python set, modelled on the ordered element list:
`s.update({x})` adds `x` when absent. -/
def setInsert [DecidableEq α] (x : α) (l : List α) : List α :=
  if x ∈ l then l else l ++ [x]

/-! ## common.py — Gateway, GatewaySelect, State, get_defaults -/

/-- common.py `Gateway` namedtuple: fields `af`, `link`, `protocol`,
`addr`, `ts` (registration timestamp). -/
structure Gateway where
  af : AF
  link : String
  protocol : String
  addr : IPAddr
  ts : Int
deriving DecidableEq, Repr

/-- common.py `GatewaySelect` namedtuple with all-None defaults. -/
structure GatewaySelect where
  af : Option AF := none
  link : Option String := none
  protocol : Option String := none
deriving DecidableEq, Repr

/-- common.py `GatewaySelect.matches`: every non-None field must equal the
corresponding Gateway field. -/
def GatewaySelect.matches (s : GatewaySelect) (o : Gateway) : Bool :=
  s.af.all (fun a => a == o.af) &&
  s.link.all (fun l => l == o.link) &&
  s.protocol.all (fun p => p == o.protocol)

/-- common.py `State` namedtuple: the candidate set and the disable set,
modelled as lists in set-iteration order. -/
structure State where
  gateways : List Gateway := []
  disabled : List GatewaySelect := []
deriving DecidableEq, Repr

/-- common.py `State.remove`: drop every gateway the select matches. -/
def State.remove (s : State) (select : GatewaySelect) : State :=
  { s with gateways := s.gateways.filter (fun g => ¬ select.matches g) }

/-- common.py `State.add`: first remove any gateway matching
`GatewaySelect(af, link, protocol)`, then insert the new gateway.  The
`time.time()` timestamp is passed explicitly. -/
def State.add (s : State) (af : AF) (link protocol : String) (addr : IPAddr) (ts : Int) : State :=
  let s1 := s.remove { af := some af, link := some link, protocol := some protocol }
  { s1 with gateways := setInsert { af := af, link := link, protocol := protocol, addr := addr, ts := ts } s1.gateways }

/-- A sequence of `State.add` calls, each giving (af, link, protocol, addr, ts). -/
def applyAdds (s : State) (calls : List (AF × String × String × IPAddr × Int)) : State :=
  calls.foldl (fun st c => st.add c.1 c.2.1 c.2.2.1 c.2.2.2.1 c.2.2.2.2) s

/-- The configuration fields `get_defaults` reads (config.priority). -/
structure Config where
  priority : List GatewaySelect := []
deriving Repr

/-- common.py `default_sort_strategy`: sort key is the timestamp. -/
def default_sort_strategy (e : Gateway) : Int := e.ts

/-- One insertion step of the stable descending sort that models Python
`sorted(bucket, key=default_sort_strategy, reverse=True)`: an element goes in
front only of strictly smaller keys, so equal-key elements keep their
original relative order, exactly as Python's stable sort does. -/
def insertByTsDesc (g : Gateway) : List Gateway → List Gateway
  | [] => [g]
  | h :: t => if default_sort_strategy h < default_sort_strategy g
              then g :: h :: t
              else h :: insertByTsDesc g t

/-- Python `sorted(l, key=default_sort_strategy, reverse=True)` (stable). -/
def sortByTsDesc (l : List Gateway) : List Gateway :=
  l.foldl (fun acc g => insertByTsDesc g acc) []

/-- The inner loop of `get_defaults` step 1: the index of the first priority
pattern that matches the candidate (`for i in range(len(priority)): ... break`). -/
def firstMatchIdx (priority : List GatewaySelect) (g : Gateway) : Option Nat :=
  match priority with
  | [] => none
  | p :: rest => if p.matches g then some 0 else (firstMatchIdx rest g).map (· + 1)

/-- The bucket a candidate lands in: its first matching priority index, or the
final overflow bucket `len(priority)` when no pattern matches. -/
def bucketIndex (priority : List GatewaySelect) (g : Gateway) : Nat :=
  match firstMatchIdx priority g with
  | some i => i
  | none => priority.length

/-- The `enabled_filter` closure inside `get_defaults`: a candidate survives
iff no disabled select matches it. -/
def enabled_filter (state : State) (e : Gateway) : Bool :=
  state.disabled.all (fun d => ¬ d.matches e)

/-- common.py `DefaultConf.get_defaults`: filter the candidate set by the
select and the disable set, partition into first-match priority buckets (the
append loop fills bucket `i` in candidate order, which equals filtering the
candidate list on `bucketIndex = i`), sort each bucket by timestamp
descending (stable), and concatenate the buckets in order. -/
def get_defaults (config : Config) (state : State) (select : GatewaySelect) : List Gateway :=
  let defaults := state.gateways.filter (fun g => select.matches g)
  let defaults := defaults.filter (fun g => enabled_filter state g)
  let by_priority := (List.range (config.priority.length + 1)).map
    (fun i => defaults.filter (fun g => bucketIndex config.priority g == i))
  (by_priority.map sortByTsDesc).flatten

/-- The uniqueness property of claim C4: no two distinct stored gateways share
an (af, link, protocol) triple. -/
def tripleUnique (s : State) : Prop :=
  s.gateways.Pairwise (fun a b => ¬ (a.af = b.af ∧ a.link = b.link ∧ a.protocol = b.protocol))

instance (s : State) : Decidable (tripleUnique s) := by
  unfold tripleUnique; infer_instance

/-- Executable lexicographic comparison of character lists (Python's string
order; spelled out because Lean's stdlib String order does not reduce in the
kernel). -/
def charListLtb : List Char → List Char → Bool
  | [], [] => false
  | [], _ :: _ => true
  | _ :: _, [] => false
  | a :: as, b :: bs => if a < b then true else if b < a then false else charListLtb as bs

/-- Python string `<`. -/
def pyStrLt (a b : String) : Prop := charListLtb a.data b.data = true

instance (a b : String) : Decidable (pyStrLt a b) := by
  unfold pyStrLt; infer_instance

/-- The tie-break order claimed by the spec for equal-timestamp candidates:
lexicographic on (link name, protocol, address bytes); for same-version
addresses, byte-string order equals numeric order. -/
def claimedTieKeyLt (g h : Gateway) : Prop :=
  pyStrLt g.link h.link ∨
  (g.link = h.link ∧
    (pyStrLt g.protocol h.protocol ∨
      (g.protocol = h.protocol ∧ g.addr.val < h.addr.val)))

instance (g h : Gateway) : Decidable (claimedTieKeyLt g h) := by
  unfold claimedTieKeyLt pyStrLt; infer_instance

/-! ## bsdnetlink.py — Link, LinkAddress, Route, NetTables -/

/-- bsdnetlink.py `Link` namedtuple. -/
structure Link where
  name : String
  index : Nat
  up : Bool
deriving DecidableEq, Repr

/-- bsdnetlink.py `LinkAddress` namedtuple.  The source field `local`
(renamed `loc`: `local` is reserved in Lean) is the optional IFA_LOCAL
address; `address` with `prefixlen` models the ip_interface value. -/
structure LinkAddress where
  link_index : Nat
  loc : Option IPAddr
  address : IPAddr
  prefixlen : Nat
deriving DecidableEq, Repr

/-- The network of the interface address (`addr.address.network` in Python):
the address masked down to its prefix. -/
def LinkAddress.network (a : LinkAddress) : IPNet :=
  let bits : Nat := if a.address.v6 then 128 else 32
  { v6 := a.address.v6
    netval := a.address.val / 2 ^ (bits - a.prefixlen) * 2 ^ (bits - a.prefixlen)
    prefixlen := a.prefixlen }

/-- The destination of a parsed route: a bare address for RTF_HOST routes,
otherwise a network (bsdnetlink.py `Route.from_snl_parsed_route`). -/
inductive RouteDst
  | ip (a : IPAddr)
  | network (n : IPNet)
deriving DecidableEq, Repr

/-- Python `g.addr in route.dst.network`-style containment, per the spec's
liveness clause (ii): a network destination contains the address when the
masked bits agree; a host destination contains exactly itself. -/
def RouteDst.containsAddr : RouteDst → IPAddr → Bool
  | .ip a, b => a == b
  | .network n, b => n.containsAddr b

/-- bsdnetlink.py `Route` namedtuple. -/
structure Route where
  dst : RouteDst
  gw : Option IPAddr
  prefixlen : Nat
  link_index : Nat
  host : Bool
deriving DecidableEq, Repr

/-- bsdnetlink.py `NetTables.LinkAddresses` namedtuple: the stored link
record together with its address set. -/
structure LinkAddresses where
  link : Link
  addrs : List LinkAddress
deriving DecidableEq, Repr

/-- Values a Python expression over a LinkAddresses record can produce. -/
inductive PyVal
  | vlink (l : Link)
  | vaddrs (a : List LinkAddress)
  | vstr (s : String)
deriving DecidableEq, Repr

/-- Python attribute lookup on a `NetTables.LinkAddresses` record: the
namedtuple has exactly the fields `link` and `addrs`, so any other attribute
name raises AttributeError. -/
def LinkAddresses.getAttr (la : LinkAddresses) : String → Except PyErr PyVal
  | "link" => .ok (.vlink la.link)
  | "addrs" => .ok (.vaddrs la.addrs)
  | _ => .error .attributeError

/-- bsdnetlink.py `NetTables`: `links` is the dict from interface index to
LinkAddresses (association list in dict insertion order, keys unique), and
`routes` is the route set. -/
structure NetTables where
  links : List (Nat × LinkAddresses) := []
  routes : List Route := []
deriving DecidableEq, Repr

/-- Python dict lookup on the links table (`self.links[k]` / `k in self.links`). -/
def dictLookup (k : Nat) : List (Nat × LinkAddresses) → Option LinkAddresses
  | [] => none
  | kv :: rest => if kv.1 = k then some kv.2 else dictLookup k rest

/-- In-place mutation of the dict value stored at key `k` (Python mutates the
LinkAddresses entry, every other entry is untouched; on a unique-key dict the
map touches exactly that entry). -/
def updValue (k : Nat) (f : LinkAddresses → LinkAddresses) (l : List (Nat × LinkAddresses)) :
    List (Nat × LinkAddresses) :=
  l.map (fun kv => if kv.1 = k then (kv.1, f kv.2) else kv)

/-- bsdnetlink.py `NetTables.new_link`: upsert keyed on the link index; an
existing entry keeps its address set, a fresh entry starts with an empty
one. -/
def NetTables.new_link (nt : NetTables) (link : Link) : NetTables :=
  if (dictLookup link.index nt.links).isSome then
    { nt with links := updValue link.index (fun la => ⟨link, la.addrs⟩) nt.links }
  else
    { nt with links := nt.links ++ [(link.index, ⟨link, []⟩)] }

/-- bsdnetlink.py `NetTables.del_link`: delete the dict entry when present
(`if link.index in self.links: del ...`, a no-op otherwise, which on a
unique-key dict is filtering on the key), then remove every route whose
link_index equals the deleted index. -/
def NetTables.del_link (nt : NetTables) (link : Link) : NetTables :=
  { links := nt.links.filter (fun kv => ¬ kv.1 = link.index)
    routes := nt.routes.filter (fun r => ¬ r.link_index = link.index) }

/-- bsdnetlink.py `NetTables.new_addr`: `self.links[a.link_index]` raises
KeyError when the index is unknown; otherwise the address is added to that
link's address set. -/
def NetTables.new_addr (nt : NetTables) (a : LinkAddress) : Except PyErr NetTables :=
  match dictLookup a.link_index nt.links with
  | none => .error .keyError
  | some _ => .ok { nt with links := updValue a.link_index (fun la => ⟨la.link, setInsert a la.addrs⟩) nt.links }

/-- bsdnetlink.py `NetTables.del_addr` (same KeyError behaviour as new_addr). -/
def NetTables.del_addr (nt : NetTables) (a : LinkAddress) : Except PyErr NetTables :=
  match dictLookup a.link_index nt.links with
  | none => .error .keyError
  | some _ => .ok { nt with links := updValue a.link_index (fun la => ⟨la.link, la.addrs.filter (fun x => ¬ x = a)⟩) nt.links }

/-- bsdnetlink.py `NetTables.new_route`: set insertion. -/
def NetTables.new_route (nt : NetTables) (r : Route) : NetTables :=
  { nt with routes := setInsert r nt.routes }

/-- bsdnetlink.py `NetTables.del_route`: `self.routes -= {r}`. -/
def NetTables.del_route (nt : NetTables) (r : Route) : NetTables :=
  { nt with routes := nt.routes.filter (fun e => ¬ e = r) }

/-- Python `list(filter(p, xs))` with a predicate that may raise: elements
are tested left to right and the first exception propagates. -/
def pyFilter (p : α → Except PyErr Bool) : List α → Except PyErr (List α)
  | [] => .ok []
  | x :: xs => do
    let b ← p x
    let rest ← pyFilter p xs
    pure (if b then x :: rest else rest)

/-- Python `next(iter(filter(p, xs)), None)`: test elements left to right,
return the first match, None when exhausted, and propagate exceptions. -/
def pyFirst (p : α → Except PyErr Bool) : List α → Except PyErr (Option α)
  | [] => .ok none
  | x :: xs => do
    if (← p x) then pure (some x) else pyFirst p xs

/-- bsdnetlink.py `NetTables.get_links`: filters the VALUES of the links
dict — which are LinkAddresses records, not Link records — through the
caller's predicate. -/
def NetTables.get_links (nt : NetTables) (p : LinkAddresses → Except PyErr Bool) :
    Except PyErr (List LinkAddresses) :=
  pyFilter p (nt.links.map (fun kv => kv.2))

/-- bsdnetlink.py `NetTables.get_routes`: `set(filter(p, self.routes))`. -/
def NetTables.get_routes (nt : NetTables) (p : Route → Bool) : List Route :=
  nt.routes.filter p

/-- The NetTables class defines no method named `get_addrs`
(only get_links / get_routes / get_link_addrs exist), so the attribute
access `nettables.get_addrs` in daemon.default_test raises AttributeError. -/
def NetTables.call_get_addrs (_ : NetTables) : Except PyErr (List LinkAddress) :=
  .error .attributeError

/-! ## daemon.py — default_test and normalize_default -/

/-- daemon.py `default_test` (lines 30-56), embedded with Python's dynamic
attribute semantics.  `get_links(lambda e: e.name == default.link)` applies
the predicate to LinkAddresses records, whose attribute lookup of `name`
raises AttributeError; only ValueError (from the 1-tuple unpacking) is
caught.  Consequently the singleton branch, which would next read `link.up`
(again AttributeError) and call the nonexistent `nettables.get_addrs`, is
unreachable: with an empty links dict the unpacking fails and False is
returned, and with a non-empty one the predicate raises. -/
def default_test (nettables : NetTables) (default : Gateway) : Except PyErr Bool := do
  let filtered ← nettables.get_links (fun e => do
    let n ← e.getAttr "name"
    pure (n == .vstr default.link))
  match filtered with
  | [link] => do
    let _up ← link.getAttr "up"
    let _addrs ← nettables.call_get_addrs
    pure false
  | _ => pure false

/-- Modelled from the spec: the Selector's liveness test (section 4.4 step 5),
which daemon.default_test was evidently meant to implement — a live link of
the candidate's name exists, and either some address on that link has a
network containing the candidate address or some route out of that link has a
destination network containing it. -/
def default_test_spec (nettables : NetTables) (g : Gateway) : Bool :=
  nettables.links.any (fun kv =>
    kv.2.link.name == g.link && kv.2.link.up &&
    (kv.2.addrs.any (fun a => a.network.containsAddr g.addr) ||
      nettables.routes.any (fun r =>
        r.link_index == kv.2.link.index && r.dst.containsAddr g.addr)))

/-- Modelled from the spec: `link_name_to_index` (section 4.1) — daemon.py
calls `bsdnetlink.if_nametoindex(snl, name)`, which src does not define
(bsdnetlink.py only has the one-argument CLI helper `if_nametoindex_nl`);
per the spec it resolves a link name to its index or fails with NotFound.
The kernel's link table is read through the NetTables mirror. -/
def if_nametoindex (nettables : NetTables) (name : String) : Except PyErr Nat :=
  match nettables.links.find? (fun kv => kv.2.link.name == name) with
  | some kv => .ok kv.2.link.index
  | none => .error .notFound

/-- A kernel route mutation issued by the reconciler. -/
inductive RouteCmd
  | delete (fib : Nat) (dst : RouteDst) (gw : Option IPAddr) (oif : Nat)
  | add (fib : Nat) (dst : IPNet) (gw : IPAddr) (oif : Option Nat)
deriving DecidableEq, Repr

/-- daemon.py `normalize_default` (lines 58-86), returning the outcome of
the pass together with the list of kernel mutations issued, in order.

The route-command layer is modelled from the spec (section 4.1
`add_route(fib, destination, gateway?, out_link?)` /
`delete_route(fib, destination, gateway?, out_link?)`): the five-argument
functions `bsdnetlink.delete_route(snl, fib, dst, gw, oif)` and
`bsdnetlink.add_route(snl, fib, dst, gw, oif)` that daemon.py calls are
absent from src — bsdnetlink.py defines only three-argument CLI-shaped
`new_route(dst, gw, iface)` / `delete_route(dst, gw, iface)` and no
`add_route` at all — so each spec command is modelled as emitting exactly
one mutation.  Each emitted mutation carries the arguments of the call site.

The current default is `current_default, = get_routes(r.dst == af_default_dst)`
with ValueError (zero or several matches) caught, leaving None. -/
def normalize_default (config : Config) (state : State) (nettables : NetTables)
    (fib : Nat) (af : AF) (af_default_dst : IPNet) :
    Except PyErr Unit × List RouteCmd :=
  let defaults := get_defaults config state { af := some af }
  match pyFirst (default_test nettables) defaults with
  | .error e => (.error e, [])
  | .ok odefault =>
    let olink_index : Except PyErr (Option Nat) :=
      match odefault with
      | none => .ok none
      | some d => (if_nametoindex nettables d.link).map some
    match olink_index with
    | .error e => (.error e, [])
    | .ok link_index =>
      let current_default : Option Route :=
        match nettables.get_routes (fun r => r.dst == .network af_default_dst) with
        | [r] => some r
        | _ => none
      match odefault, current_default with
      | none, none => (.ok (), [])
      | none, some cur => (.ok (), [.delete fib cur.dst cur.gw cur.link_index])
      | some d, none => (.ok (), [.add fib af_default_dst d.addr link_index])
      | some d, some cur =>
        if cur.gw == some d.addr then (.ok (), [])
        else (.ok (), [.delete fib cur.dst cur.gw cur.link_index,
                       .add fib af_default_dst d.addr link_index])

/-! ## common.py — JSON (de)serialization of the State -/

/-- The JSON data the state file holds.  Objects are key/value lists with
unique keys (json.loads of a JSON object); `Json.ip` is the structured leaf
standing for the stdlib text form of an IP address (see the header note). -/
inductive Json
  | null
  | str (s : String)
  | num (n : Int)
  | ip (a : IPAddr)
  | arr (elems : List Json)
  | obj (fields : List (String × Json))

/-- Python `data[k]` / `data.get(k)` on a dict. -/
def jLookup (fields : List (String × Json)) (k : String) : Option Json :=
  match fields.find? (fun kv => kv.1 == k) with
  | some kv => some kv.2
  | none => none

/-- Python `data.get(k, d)` on a dict. -/
def jGetD (fields : List (String × Json)) (k : String) (d : Json) : Json :=
  (jLookup fields k).getD d

/-- A set/list comprehension `{ f(e) for e in xs }` over parsed elements:
elements are converted left to right and the first exception propagates. -/
def exceptMap (f : Json → Except PyErr α) : List Json → Except PyErr (List α)
  | [] => .ok []
  | x :: xs => do
    let a ← f x
    let rest ← exceptMap f xs
    pure (a :: rest)

/-- Iterating a JSON value in a comprehension: only arrays are iterable here. -/
def parseListOf (f : Json → Except PyErr α) : Json → Except PyErr (List α)
  | .arr xs => exceptMap f xs
  | _ => .error .typeError

/-- common.py `Gateway.from_data`: `kwargs = dict(data)` then
`kwargs['af'] = socket.AddressFamily[data['af']]` (KeyError when the key is
missing or the name unknown) and `kwargs['addr'] = ipaddress.ip_address(data['addr'])`
(KeyError when missing, ValueError on non-address data); finally
`Gateway(**kwargs)` — the namedtuple has no defaults, so the keys must be
exactly the five fields, anything else raises TypeError.  The embedding also
requires the string/number field forms that `to_data` produces (a Python
namedtuple would accept arbitrary dynamic values for `link`, `protocol`,
`ts`; no checked property depends on such states). -/
def Gateway.from_data (data : Json) : Except PyErr Gateway :=
  match data with
  | .obj fields =>
    match jLookup fields "af" with
    | none => .error .keyError
    | some (.str afname) =>
      match AF.fromName afname with
      | none => .error .keyError
      | some af =>
        match jLookup fields "addr" with
        | none => .error .keyError
        | some (.ip a) =>
          match jLookup fields "link", jLookup fields "protocol", jLookup fields "ts" with
          | some (.str link), some (.str protocol), some (.num ts) =>
            if fields.all (fun kv =>
                kv.1 == "af" || kv.1 == "link" || kv.1 == "protocol" ||
                kv.1 == "addr" || kv.1 == "ts")
            then .ok { af := af, link := link, protocol := protocol, addr := a, ts := ts }
            else .error .typeError
          | _, _, _ => .error .typeError
        | some _ => .error .valueError
    | some _ => .error .typeError
  | _ => .error .typeError

/-- common.py `Gateway.to_data`: `_asdict()` in namedtuple field order, with
`af` replaced by its enum name and `addr` by its text form. -/
def Gateway.to_data (g : Gateway) : Json :=
  .obj [("af", .str g.af.name), ("link", .str g.link), ("protocol", .str g.protocol),
        ("addr", .ip g.addr), ("ts", .num g.ts)]

/-- common.py `GatewaySelect.from_data`: `kwargs = dict(data)`; only when
`data.get('af')` is not None is it replaced by the enum member; the
namedtuple defaults every missing field to None, and unexpected keys raise
TypeError. -/
def GatewaySelect.from_data (data : Json) : Except PyErr GatewaySelect :=
  match data with
  | .obj fields => do
    let af ← (match jLookup fields "af" with
      | none => .ok none
      | some .null => .ok none
      | some (.str s) =>
        match AF.fromName s with
        | some a => Except.ok (some a)
        | none => Except.error PyErr.keyError
      | some _ => .error .typeError)
    let link ← (match jLookup fields "link" with
      | none => .ok none
      | some .null => .ok none
      | some (.str s) => Except.ok (some s)
      | some _ => .error .typeError)
    let protocol ← (match jLookup fields "protocol" with
      | none => .ok none
      | some .null => .ok none
      | some (.str s) => Except.ok (some s)
      | some _ => .error .typeError)
    if fields.all (fun kv => kv.1 == "af" || kv.1 == "link" || kv.1 == "protocol")
    then .ok { af := af, link := link, protocol := protocol }
    else .error .typeError
  | _ => .error .typeError

/-- common.py `GatewaySelect.to_data`: `_asdict()` in field order; a present
`af` is replaced by its name, a None field stays None (JSON null). -/
def GatewaySelect.to_data (s : GatewaySelect) : Json :=
  .obj [("af", match s.af with | some a => .str a.name | none => .null),
        ("link", match s.link with | some l => .str l | none => .null),
        ("protocol", match s.protocol with | some p => .str p | none => .null)]

/-- common.py `State.from_data`: `kwargs = dict(data)`;
`kwargs['gateways'] = { Gateway.from_data(e) for e in data.get('gateways', []) }`
and likewise for `disabled` (so a missing field defaults to the empty set);
then `State(**kwargs)` — because the comprehensions overwrite (or create)
those two keys, the constructor raises TypeError exactly when some other key
is present in the parsed object. -/
def State.from_data (data : Json) : Except PyErr State :=
  match data with
  | .obj fields => do
    let gateways ← parseListOf Gateway.from_data (jGetD fields "gateways" (.arr []))
    let disabled ← parseListOf GatewaySelect.from_data (jGetD fields "disabled" (.arr []))
    if fields.all (fun kv => kv.1 == "gateways" || kv.1 == "disabled")
    then .ok { gateways := gateways, disabled := disabled }
    else .error .typeError
  | _ => .error .typeError

/-- common.py `State.to_data`. -/
def State.to_data (s : State) : Json :=
  .obj [("gateways", .arr (s.gateways.map Gateway.to_data)),
        ("disabled", .arr (s.disabled.map GatewaySelect.to_data))]

/-- common.py `State.from_path`: parse the file's JSON when it exists,
otherwise return an empty State.  The argument is the file's parsed content,
`none` when the file does not exist. -/
def State.from_path : Option Json → Except PyErr State
  | some j => State.from_data j
  | none => .ok {}


/-! ## Helper lemmas -/

theorem dictLookup_updValue_self (k : Nat) (f : LinkAddresses → LinkAddresses)
    (l : List (Nat × LinkAddresses)) :
    dictLookup k (updValue k f l) = (dictLookup k l).map f := by
  induction l with
  | nil => rfl
  | cons hd tl ih =>
    obtain ⟨a, b⟩ := hd
    by_cases h : a = k
    · simp [updValue, dictLookup, h]
    · simp [updValue, dictLookup, h]
      simpa [updValue] using ih

theorem dictLookup_updValue_ne (k i : Nat) (hik : i ≠ k) (f : LinkAddresses → LinkAddresses)
    (l : List (Nat × LinkAddresses)) :
    dictLookup i (updValue k f l) = dictLookup i l := by
  have hki : ¬ k = i := fun he => hik he.symm
  induction l with
  | nil => rfl
  | cons hd tl ih =>
    obtain ⟨a, b⟩ := hd
    by_cases h : a = k
    · simp [updValue, dictLookup, h, hki]
      simpa [updValue] using ih
    · by_cases hai : a = i
      · simp [updValue, dictLookup, h, hai, hik, hki]
      · simp [updValue, dictLookup, h, hai]
        simpa [updValue] using ih

theorem dictLookup_eq_none_keys (k : Nat) (l : List (Nat × LinkAddresses))
    (h : dictLookup k l = none) : ∀ kv ∈ l, kv.1 ≠ k := by
  induction l with
  | nil => intro kv hkv; cases hkv
  | cons hd tl ih =>
    by_cases hk : hd.1 = k
    · simp [dictLookup, hk] at h
    · intro kv hkv
      rcases List.mem_cons.mp hkv with he | he
      · rw [he]; exact hk
      · have h2 : dictLookup k tl = none := by simpa [dictLookup, hk] using h
        exact ih h2 kv he

theorem filter_self_of_mem (p : α → Bool) (l : List α) :
    (l.filter p).filter p = l.filter p :=
  List.filter_eq_self.mpr (fun _ ha => List.of_mem_filter ha)

/-! ## Claim C9 — NetTables.new_link upsert frame property -/

/-- C9: upserting a Link whose index is already present replaces the stored
link record while keeping that link's address set, and leaves every other
links entry and the whole route set unchanged. -/
theorem c9_new_link_upsert_frame (nt : NetTables) (link : Link) (la : LinkAddresses)
    (hmem : dictLookup link.index nt.links = some la) :
    dictLookup link.index (nt.new_link link).links = some ⟨link, la.addrs⟩ ∧
    (∀ i, i ≠ link.index → dictLookup i (nt.new_link link).links = dictLookup i nt.links) ∧
    (nt.new_link link).routes = nt.routes := by
  have hsome : (dictLookup link.index nt.links).isSome = true := by rw [hmem]; rfl
  unfold NetTables.new_link
  rw [if_pos hsome]
  refine ⟨?_, ?_, rfl⟩
  · show dictLookup link.index (updValue link.index (fun x => ⟨link, x.addrs⟩) nt.links) = _
    rw [dictLookup_updValue_self, hmem]
    rfl
  · intro i hi
    show dictLookup i (updValue link.index (fun la => (⟨link, la.addrs⟩ : LinkAddresses)) nt.links) =
      dictLookup i nt.links
    exact dictLookup_updValue_ne link.index i hi _ nt.links

def c9_la : LinkAddresses :=
  ⟨⟨"em0", 1, false⟩, [⟨1, none, ⟨false, 167772165⟩, 24⟩]⟩

def c9_nt : NetTables :=
  { links := [(1, c9_la), (2, ⟨⟨"em1", 2, true⟩, []⟩)]
    routes := [⟨.network ⟨false, 0, 0⟩, some ⟨false, 167772161⟩, 0, 1, false⟩] }

def c9_link : Link := ⟨"em0", 1, true⟩

theorem c9_new_link_upsert_frame_witness :
    dictLookup c9_link.index c9_nt.links = some c9_la ∧
    (dictLookup c9_link.index (c9_nt.new_link c9_link).links = some ⟨c9_link, c9_la.addrs⟩ ∧
      (∀ i, i ≠ c9_link.index → dictLookup i (c9_nt.new_link c9_link).links = dictLookup i c9_nt.links) ∧
      (c9_nt.new_link c9_link).routes = c9_nt.routes) :=
  ⟨by decide, c9_new_link_upsert_frame c9_nt c9_link c9_la (by decide)⟩

/-! ## Claim C10 — idempotent deletions on NetTables -/

/-- C10: deleting a link whose index is absent raises no error (del_link is
total), leaves the links dict unchanged, and still removes every route with
that output index; deleting an absent route leaves NetTables unchanged; both
deletions are idempotent. -/
theorem c10_deletes_idempotent (nt : NetTables) (link : Link) (r : Route)
    (hl : dictLookup link.index nt.links = none)
    (hr : r ∉ nt.routes) :
    (nt.del_link link).links = nt.links ∧
    (∀ e, e ∈ (nt.del_link link).routes ↔ (e ∈ nt.routes ∧ e.link_index ≠ link.index)) ∧
    (nt.del_link link).del_link link = nt.del_link link ∧
    nt.del_route r = nt ∧
    (nt.del_route r).del_route r = nt.del_route r := by
  refine ⟨?_, ?_, ?_, ?_, ?_⟩
  · show nt.links.filter (fun kv => ¬ kv.1 = link.index) = nt.links
    apply List.filter_eq_self.mpr
    intro kv hkv
    simpa using dictLookup_eq_none_keys link.index nt.links hl kv hkv
  · intro e
    show e ∈ nt.routes.filter (fun x => ¬ x.link_index = link.index) ↔ _
    simp [List.mem_filter]
  · simp only [NetTables.del_link]
    rw [filter_self_of_mem, filter_self_of_mem]
  · show NetTables.mk nt.links (nt.routes.filter (fun e => ¬ e = r)) = nt
    have : nt.routes.filter (fun e => ¬ e = r) = nt.routes := by
      apply List.filter_eq_self.mpr
      intro x hx
      simp only [decide_eq_true_eq]
      intro he
      exact hr (he ▸ hx)
    rw [this]
  · simp only [NetTables.del_route]
    rw [filter_self_of_mem]

def c10_nt : NetTables :=
  { links := [(2, ⟨⟨"em1", 2, true⟩, []⟩)]
    routes := [⟨.network ⟨false, 0, 0⟩, some ⟨false, 167772161⟩, 0, 1, false⟩,
               ⟨.network ⟨false, 167772160, 24⟩, none, 24, 2, false⟩] }

def c10_link : Link := ⟨"em0", 1, true⟩

def c10_r : Route := ⟨.network ⟨true, 0, 0⟩, none, 0, 2, false⟩

theorem c10_deletes_idempotent_witness :
    dictLookup c10_link.index c10_nt.links = none ∧
    c10_r ∉ c10_nt.routes ∧
    ((c10_nt.del_link c10_link).links = c10_nt.links ∧
      (∀ e, e ∈ (c10_nt.del_link c10_link).routes ↔ (e ∈ c10_nt.routes ∧ e.link_index ≠ c10_link.index)) ∧
      (c10_nt.del_link c10_link).del_link c10_link = c10_nt.del_link c10_link ∧
      c10_nt.del_route c10_r = c10_nt ∧
      (c10_nt.del_route c10_r).del_route c10_r = c10_nt.del_route c10_r) :=
  ⟨by decide, by decide, c10_deletes_idempotent c10_nt c10_link c10_r (by decide) (by decide)⟩

/-! ## Claim C7 — orphan LinkAddress insertion -/

def c7_orphan : LinkAddress := ⟨3, none, ⟨false, 167772165⟩, 24⟩

/-- C7 counterexample: inserting a LinkAddress whose link_index references no
known link does NOT succeed — new_addr raises KeyError instead of dropping
the orphan. -/
theorem c7_orphan_insert_counterexample :
    NetTables.new_addr { links := [], routes := [] } c7_orphan = .error .keyError ∧
    ∀ nt2, NetTables.new_addr { links := [], routes := [] } c7_orphan ≠ .ok nt2 := by
  refine ⟨rfl, ?_⟩
  intro nt2 h
  exact Except.noConfusion h

/-- C7 amended: inserting a LinkAddress whose link_index references no known
link raises KeyError (the exception precedes any mutation, so the mirror
state is unchanged — but the orphan is not tolerated). -/
theorem c7_orphan_insert_keyerror (nt : NetTables) (a : LinkAddress)
    (h : dictLookup a.link_index nt.links = none) :
    nt.new_addr a = .error .keyError := by
  unfold NetTables.new_addr
  rw [h]

theorem c7_orphan_insert_keyerror_witness :
    dictLookup c7_orphan.link_index ({ links := [], routes := [] } : NetTables).links = none ∧
    NetTables.new_addr { links := [], routes := [] } c7_orphan = .error .keyError :=
  ⟨rfl, c7_orphan_insert_keyerror { links := [], routes := [] } c7_orphan rfl⟩

/-! ## Claims C1 and C2 — the broken liveness test and the aborted pass

Concrete scenario: candidate 10.0.0.1 on link em0; the mirror knows em0
(index 1, up) carrying 10.0.0.5/24, and a current default route via
10.0.0.2 — the claims' premises (live selected gateway, differing current
default) all hold per the spec, yet the code errors out. -/

def live_g : Gateway := ⟨.inet, "em0", "dhcp", ⟨false, 167772161⟩, 100⟩

def live_cur : Route := ⟨.network ⟨false, 0, 0⟩, some ⟨false, 167772162⟩, 0, 1, false⟩

def live_nt : NetTables :=
  { links := [(1, ⟨⟨"em0", 1, true⟩, [⟨1, none, ⟨false, 167772165⟩, 24⟩]⟩)]
    routes := [live_cur] }

def live_state : State := { gateways := [live_g], disabled := [] }

def inet4_default_dst : IPNet := ⟨false, 0, 0⟩

/-- C2 (code bug): on a mirror whose links dict is non-empty the liveness
test raises AttributeError — get_links hands LinkAddresses records to the
predicate `e.name == default.link` — although the spec's liveness condition
holds at this very input (em0 is up and its 10.0.0.5/24 address covers the
candidate).  Selection therefore never happens on any populated mirror. -/
theorem c2_default_test_raises :
    default_test live_nt live_g = .error .attributeError ∧
    default_test_spec live_nt live_g = true := by
  constructor
  · rfl
  · rfl

/-- C1 (code bug): the reconciliation pass on the same scenario — where the
claim demands exactly a delete of the current default followed by an add via
10.0.0.1 — aborts with AttributeError inside the liveness filter and emits
no kernel mutation at all, even though the mirror holds exactly one current
default route whose gateway differs from the candidate's address. -/
theorem c1_update_pass_aborts :
    normalize_default {} live_state live_nt 0 .inet inet4_default_dst =
      (.error .attributeError, []) ∧
    NetTables.get_routes live_nt (fun r => r.dst == .network inet4_default_dst) = [live_cur] ∧
    live_cur.gw ≠ some live_g.addr ∧
    default_test_spec live_nt live_g = true := by
  refine ⟨rfl, rfl, ?_, rfl⟩
  intro h
  simp [live_cur, live_g] at h

/-! ## Claim C4 — uniqueness of (af, link, protocol) triples under State.add -/

theorem matches_triple_iff (af : AF) (link protocol : String) (x : Gateway) :
    GatewaySelect.matches { af := some af, link := some link, protocol := some protocol } x = true ↔
      (af = x.af ∧ link = x.link ∧ protocol = x.protocol) := by
  simp [GatewaySelect.matches, and_assoc]

theorem tripleUnique_add (s : State) (af : AF) (link protocol : String)
    (addr : IPAddr) (ts : Int) (h : tripleUnique s) :
    tripleUnique (s.add af link protocol addr ts) := by
  have hsel : GatewaySelect.matches { af := some af, link := some link, protocol := some protocol }
      { af := af, link := link, protocol := protocol, addr := addr, ts := ts } = true :=
    (matches_triple_iff af link protocol _).mpr ⟨rfl, rfl, rfl⟩
  have hnot : ({ af := af, link := link, protocol := protocol, addr := addr, ts := ts } : Gateway) ∉
      s.gateways.filter
        (fun x => ¬ GatewaySelect.matches { af := some af, link := some link, protocol := some protocol } x) := by
    intro hmem
    have hp := List.of_mem_filter hmem
    simp only [decide_eq_true_eq] at hp
    exact hp hsel
  show List.Pairwise _ (setInsert _ _)
  unfold setInsert
  simp only [State.remove]
  rw [if_neg hnot]
  apply List.pairwise_append.mpr
  refine ⟨h.sublist (List.filter_sublist _), List.pairwise_singleton _ _, ?_⟩
  intro a ha b hb
  have hbg := List.mem_singleton.mp hb
  have hpa := List.of_mem_filter ha
  simp only [decide_eq_true_eq] at hpa
  subst hbg
  intro hcontra
  exact hpa ((matches_triple_iff af link protocol a).mpr
    ⟨hcontra.1.symm, hcontra.2.1.symm, hcontra.2.2.symm⟩)

/-- C4 counterexample: the claim quantifies over sequences of adds starting
from ANY State; a start state already holding two gateways with the same
(af, link, protocol) triple keeps both through an add that touches a
different triple, so the uniqueness conclusion fails. -/
theorem c4_any_start_counterexample :
    ¬ tripleUnique (applyAdds
      { gateways := [⟨.inet, "em0", "dhcp", ⟨false, 1⟩, 1⟩, ⟨.inet, "em0", "dhcp", ⟨false, 2⟩, 2⟩]
        disabled := [] }
      [(.inet6, "em1", "ra", ⟨true, 1⟩, 3)]) := by decide

/-- C4 amended: starting from a State in which every (af, link, protocol)
triple occurs at most once — in particular the empty State — any sequence of
State.add calls preserves that property: each add first removes every
gateway matching the select built from its af/link/protocol arguments and
then inserts the single replacement. -/
theorem c4_amended_unique_preserved (s : State)
    (calls : List (AF × String × String × IPAddr × Int))
    (h : tripleUnique s) : tripleUnique (applyAdds s calls) := by
  induction calls generalizing s with
  | nil => exact h
  | cons c rest ih =>
    show tripleUnique (applyAdds (s.add c.1 c.2.1 c.2.2.1 c.2.2.2.1 c.2.2.2.2) rest)
    exact ih _ (tripleUnique_add s c.1 c.2.1 c.2.2.1 c.2.2.2.1 c.2.2.2.2 h)

theorem c4_amended_unique_preserved_witness :
    tripleUnique { gateways := [], disabled := [] } ∧
    tripleUnique (applyAdds { gateways := [], disabled := [] }
      [(.inet, "em0", "dhcp", ⟨false, 167772161⟩, 100),
       (.inet, "em0", "dhcp", ⟨false, 167772162⟩, 200)]) :=
  ⟨by decide, c4_amended_unique_preserved _ _ (by decide)⟩

/-! ## Claim C6 — robustness of State loading -/

/-- C6 counterexample: a state object carrying an extra field is NOT
ignored — `State(**kwargs)` rejects the unexpected keyword and raises
TypeError, so loading fails. -/
theorem c6_unknown_field_counterexample :
    State.from_data (.obj [("gateways", .arr []), ("disabled", .arr []), ("version", .num 1)]) =
      .error .typeError := rfl

/-- C6 amended: a missing state file loads as the empty State and an object
missing the gateways / disabled fields defaults them to empty sets, but a
load can only succeed when every key of the object is gateways or disabled —
any unknown field raises TypeError instead of being ignored. -/
theorem c6_amended_load :
    State.from_path none = .ok { gateways := [], disabled := [] } ∧
    State.from_data (.obj []) = .ok { gateways := [], disabled := [] } ∧
    ∀ fields s, State.from_data (.obj fields) = .ok s →
      ∀ kv ∈ fields, kv.1 = "gateways" ∨ kv.1 = "disabled" := by
  refine ⟨rfl, rfl, ?_⟩
  intro fields s h kv hkv
  cases hg : parseListOf Gateway.from_data (jGetD fields "gateways" (.arr [])) with
  | error e =>
    have h2 : (Except.error e : Except PyErr State) = Except.ok s := by
      rw [← h]
      show Except.error e = (do
        let gateways ← parseListOf Gateway.from_data (jGetD fields "gateways" (.arr []))
        let disabled ← parseListOf GatewaySelect.from_data (jGetD fields "disabled" (.arr []))
        if fields.all (fun kv => kv.1 == "gateways" || kv.1 == "disabled")
        then Except.ok (State.mk gateways disabled)
        else Except.error PyErr.typeError)
      rw [hg]
      rfl
    exact Except.noConfusion h2
  | ok gws =>
    cases hd : parseListOf GatewaySelect.from_data (jGetD fields "disabled" (.arr [])) with
    | error e =>
      have h2 : (Except.error e : Except PyErr State) = Except.ok s := by
        rw [← h]
        show Except.error e = (do
          let gateways ← parseListOf Gateway.from_data (jGetD fields "gateways" (.arr []))
          let disabled ← parseListOf GatewaySelect.from_data (jGetD fields "disabled" (.arr []))
          if fields.all (fun kv => kv.1 == "gateways" || kv.1 == "disabled")
          then Except.ok (State.mk gateways disabled)
          else Except.error PyErr.typeError)
        rw [hg, hd]
        rfl
      exact Except.noConfusion h2
    | ok dis =>
      by_cases hc : (fields.all fun kv => kv.1 == "gateways" || kv.1 == "disabled") = true
      · have hone := List.all_eq_true.mp hc kv hkv
        simpa using hone
      · have h2 : (Except.error PyErr.typeError : Except PyErr State) = Except.ok s := by
          rw [← h]
          show Except.error PyErr.typeError = (do
            let gateways ← parseListOf Gateway.from_data (jGetD fields "gateways" (.arr []))
            let disabled ← parseListOf GatewaySelect.from_data (jGetD fields "disabled" (.arr []))
            if fields.all (fun kv => kv.1 == "gateways" || kv.1 == "disabled")
            then Except.ok (State.mk gateways disabled)
            else Except.error PyErr.typeError)
          rw [hg, hd]
          show Except.error PyErr.typeError =
            (if (fields.all fun kv => kv.1 == "gateways" || kv.1 == "disabled") = true
             then Except.ok (State.mk gws dis) else Except.error PyErr.typeError)
          rw [if_neg hc]
        exact Except.noConfusion h2

theorem c6_amended_load_witness :
    ∀ kv ∈ [("gateways", Json.arr [])], kv.1 = "gateways" ∨ kv.1 = "disabled" :=
  c6_amended_load.2.2 [("gateways", Json.arr [])] { gateways := [], disabled := [] } rfl

/-! ## Claim C8 — State / JSON round trip -/

theorem af_name_roundtrip (a : AF) : AF.fromName a.name = some a := by
  cases a <;> rfl

theorem gateway_roundtrip (g : Gateway) : Gateway.from_data g.to_data = .ok g := by
  obtain ⟨af, link, protocol, addr, ts⟩ := g
  cases af <;> rfl

theorem select_roundtrip (s : GatewaySelect) : GatewaySelect.from_data s.to_data = .ok s := by
  obtain ⟨af, link, protocol⟩ := s
  cases af with
  | none => cases link <;> cases protocol <;> rfl
  | some a => cases a <;> cases link <;> cases protocol <;> rfl

theorem exceptMap_map_ok (f : Json → Except PyErr α) (g : α → Json)
    (hf : ∀ b, f (g b) = .ok b) (l : List α) :
    exceptMap f (l.map g) = .ok l := by
  induction l with
  | nil => rfl
  | cons x xs ih =>
    show (do
      let a ← f (g x)
      let rest ← exceptMap f (xs.map g)
      pure (a :: rest)) = Except.ok (x :: xs)
    rw [hf x, ih]
    rfl

theorem parseListOf_arr (f : Json → Except PyErr α) (xs : List Json) :
    parseListOf f (.arr xs) = exceptMap f xs := rfl

/-- C8: serializing a State to its JSON data form and parsing it back yields
the original State (on the list model that carries the sets in iteration
order this is equality on the nose, in particular equality of the underlying
sets); dump/load of the data is the identity on the `Json` model. -/
theorem c8_state_json_roundtrip (s : State) : State.from_data s.to_data = .ok s := by
  obtain ⟨gws, dis⟩ := s
  show (do
    let gateways ← parseListOf Gateway.from_data
      (jGetD [("gateways", Json.arr (List.map Gateway.to_data gws)),
              ("disabled", Json.arr (List.map GatewaySelect.to_data dis))] "gateways" (.arr []))
    let disabled ← parseListOf GatewaySelect.from_data
      (jGetD [("gateways", Json.arr (List.map Gateway.to_data gws)),
              ("disabled", Json.arr (List.map GatewaySelect.to_data dis))] "disabled" (.arr []))
    if [("gateways", Json.arr (List.map Gateway.to_data gws)),
        ("disabled", Json.arr (List.map GatewaySelect.to_data dis))].all
          (fun kv => kv.1 == "gateways" || kv.1 == "disabled")
    then Except.ok (State.mk gateways disabled)
    else Except.error PyErr.typeError) = Except.ok (State.mk gws dis)
  have h1 : jGetD [("gateways", Json.arr (List.map Gateway.to_data gws)),
      ("disabled", Json.arr (List.map GatewaySelect.to_data dis))] "gateways" (.arr []) =
      Json.arr (List.map Gateway.to_data gws) := rfl
  have h2 : jGetD [("gateways", Json.arr (List.map Gateway.to_data gws)),
      ("disabled", Json.arr (List.map GatewaySelect.to_data dis))] "disabled" (.arr []) =
      Json.arr (List.map GatewaySelect.to_data dis) := rfl
  rw [h1, h2, parseListOf_arr, parseListOf_arr,
      exceptMap_map_ok Gateway.from_data Gateway.to_data gateway_roundtrip gws,
      exceptMap_map_ok GatewaySelect.from_data GatewaySelect.to_data select_roundtrip dis]
  rfl

/-! ## Lemmas about the priority-bucket ranking (for claims C3 and C5) -/

theorem mem_insertByTsDesc (a g : Gateway) (l : List Gateway) :
    a ∈ insertByTsDesc g l ↔ a = g ∨ a ∈ l := by
  induction l with
  | nil => simp [insertByTsDesc]
  | cons x t ih =>
    unfold insertByTsDesc
    by_cases hc : default_sort_strategy x < default_sort_strategy g
    · simp [hc]
    · simp only [if_neg hc, List.mem_cons, ih]
      tauto

theorem mem_sortByTsDesc (a : Gateway) (l : List Gateway) :
    a ∈ sortByTsDesc l ↔ a ∈ l := by
  have key : ∀ (l2 acc : List Gateway),
      a ∈ l2.foldl (fun acc g => insertByTsDesc g acc) acc ↔ a ∈ acc ∨ a ∈ l2 := by
    intro l2
    induction l2 with
    | nil => intro acc; simp
    | cons g t ih =>
      intro acc
      simp only [List.foldl_cons]
      rw [ih, mem_insertByTsDesc]
      simp only [List.mem_cons]
      tauto
  unfold sortByTsDesc
  rw [key]
  simp

/-- The accumulator invariant of the stable sort: keys weakly decrease. -/
def tsByDescSorted (l : List Gateway) : Prop :=
  l.Pairwise (fun a b => default_sort_strategy b ≤ default_sort_strategy a)

theorem insertByTsDesc_sorted (g : Gateway) (l : List Gateway) (h : tsByDescSorted l) :
    tsByDescSorted (insertByTsDesc g l) := by
  induction l with
  | nil => simp [insertByTsDesc, tsByDescSorted]
  | cons x t ih =>
    rcases List.pairwise_cons.mp h with ⟨hx, ht⟩
    unfold insertByTsDesc
    by_cases hc : default_sort_strategy x < default_sort_strategy g
    · rw [if_pos hc]
      apply List.pairwise_cons.mpr
      refine ⟨?_, h⟩
      intro y hy
      rcases List.mem_cons.mp hy with he | he
      · rw [he]; exact le_of_lt hc
      · exact le_trans (hx y he) (le_of_lt hc)
    · rw [if_neg hc]
      apply List.pairwise_cons.mpr
      refine ⟨?_, ih ht⟩
      intro y hy
      rcases (mem_insertByTsDesc y g t).mp hy with he | he
      · rw [he]; exact le_of_not_lt hc
      · exact hx y he

/-- The elements of a given timestamp key, in order. -/
def tsFilter (t : Int) (l : List Gateway) : List Gateway :=
  l.filter (fun x => default_sort_strategy x == t)

theorem tsFilter_insertByTsDesc (t : Int) (g : Gateway) (l : List Gateway)
    (h : tsByDescSorted l) :
    tsFilter t (insertByTsDesc g l) =
      tsFilter t l ++ (if default_sort_strategy g == t then [g] else []) := by
  induction l with
  | nil =>
    by_cases hg : default_sort_strategy g == t <;> simp [insertByTsDesc, tsFilter, hg]
  | cons x xs ih =>
    rcases List.pairwise_cons.mp h with ⟨hx, ht⟩
    unfold insertByTsDesc
    by_cases hc : default_sort_strategy x < default_sort_strategy g
    · rw [if_pos hc]
      by_cases hg : default_sort_strategy g == t
      · have hgt : default_sort_strategy g = t := by simpa using hg
        have hxt : tsFilter t (x :: xs) = [] := by
          unfold tsFilter
          apply List.filter_eq_nil_iff.mpr
          intro y hy
          have hyx : default_sort_strategy y ≤ default_sort_strategy x := by
            rcases List.mem_cons.mp hy with he | he
            · rw [he]
            · exact hx y he
          have hlt : default_sort_strategy y < t := lt_of_le_of_lt hyx (hgt ▸ hc)
          simpa using ne_of_lt hlt
        have hcons : tsFilter t (g :: x :: xs) = g :: tsFilter t (x :: xs) := by
          unfold tsFilter
          simp [List.filter_cons, hg]
        rw [hcons, hxt, hg]
        simp
      · have hcons : tsFilter t (g :: x :: xs) = tsFilter t (x :: xs) := by
          unfold tsFilter
          simp [List.filter_cons, hg]
        simp [hcons, hg]
    · rw [if_neg hc]
      have hrec := ih ht
      by_cases hx0 : default_sort_strategy x == t
      · have h1 : tsFilter t (x :: insertByTsDesc g xs) = x :: tsFilter t (insertByTsDesc g xs) := by
          unfold tsFilter
          simp [List.filter_cons, hx0]
        have h2 : tsFilter t (x :: xs) = x :: tsFilter t xs := by
          unfold tsFilter
          simp [List.filter_cons, hx0]
        rw [h1, h2, hrec]
        simp
      · have h1 : tsFilter t (x :: insertByTsDesc g xs) = tsFilter t (insertByTsDesc g xs) := by
          unfold tsFilter
          simp [List.filter_cons, hx0]
        have h2 : tsFilter t (x :: xs) = tsFilter t xs := by
          unfold tsFilter
          simp [List.filter_cons, hx0]
        rw [h1, h2, hrec]

theorem sortByTsDesc_tsFilter (t : Int) (l : List Gateway) :
    tsFilter t (sortByTsDesc l) = tsFilter t l := by
  have key : ∀ (l2 acc : List Gateway), tsByDescSorted acc →
      tsByDescSorted (l2.foldl (fun acc g => insertByTsDesc g acc) acc) ∧
      tsFilter t (l2.foldl (fun acc g => insertByTsDesc g acc) acc) =
        tsFilter t acc ++ tsFilter t l2 := by
    intro l2
    induction l2 with
    | nil => intro acc h; exact ⟨h, by simp [tsFilter]⟩
    | cons g gs ih =>
      intro acc h
      simp only [List.foldl_cons]
      obtain ⟨h1, h2⟩ := ih (insertByTsDesc g acc) (insertByTsDesc_sorted g acc h)
      refine ⟨h1, ?_⟩
      rw [h2, tsFilter_insertByTsDesc t g acc h]
      by_cases hg : default_sort_strategy g == t <;>
        simp [tsFilter, List.filter_cons, hg, List.append_assoc]
  unfold sortByTsDesc
  have h0 : tsByDescSorted ([] : List Gateway) := by simp [tsByDescSorted]
  have := (key l [] h0).2
  rw [this]
  simp [tsFilter]

theorem sublist_flatten_of_mem {l : List Gateway} {L : List (List Gateway)}
    (h : l ∈ L) : l.Sublist L.flatten := by
  induction L with
  | nil => cases h
  | cons x xs ih =>
    rcases List.mem_cons.mp h with he | he
    · rw [he, List.flatten_cons]
      exact List.sublist_append_left x xs.flatten
    · rw [List.flatten_cons]
      exact (ih he).trans (List.sublist_append_right x xs.flatten)

theorem firstMatchIdx_lt_length (priority : List GatewaySelect) (g : Gateway) (i : Nat)
    (h : firstMatchIdx priority g = some i) : i < priority.length := by
  induction priority generalizing i with
  | nil => cases h
  | cons p rest ih =>
    unfold firstMatchIdx at h
    by_cases hp : p.matches g
    · rw [if_pos hp] at h
      cases h
      simp
    · rw [if_neg hp] at h
      cases hm : firstMatchIdx rest g with
      | none => rw [hm] at h; cases h
      | some j =>
        rw [hm] at h
        simp at h
        have hj := ih j hm
        simp only [List.length_cons]
        omega

theorem bucketIndex_eq_of_firstMatch (priority : List GatewaySelect) (g : Gateway) (i : Nat)
    (h : firstMatchIdx priority g = some i) : bucketIndex priority g = i := by
  unfold bucketIndex
  rw [h]

theorem bucketIndex_le_length (priority : List GatewaySelect) (g : Gateway) :
    bucketIndex priority g ≤ priority.length := by
  unfold bucketIndex
  cases hm : firstMatchIdx priority g with
  | none => exact le_refl _
  | some i => exact le_of_lt (firstMatchIdx_lt_length priority g i hm)

/-- The candidate list after the select filter and the disable filter. -/
def filteredDefaults (state : State) (select : GatewaySelect) : List Gateway :=
  (state.gateways.filter (fun g => select.matches g)).filter (fun g => enabled_filter state g)

theorem get_defaults_blocks (config : Config) (state : State) (select : GatewaySelect) :
    get_defaults config state select =
      ((List.range (config.priority.length + 1)).map
        (fun i => sortByTsDesc ((filteredDefaults state select).filter
          (fun g => bucketIndex config.priority g == i)))).flatten := by
  show (List.map sortByTsDesc
      (List.map
        (fun i => List.filter (fun g => bucketIndex config.priority g == i)
          (List.filter (fun g => enabled_filter state g)
            (List.filter (fun g => select.matches g) state.gateways)))
        (List.range (config.priority.length + 1)))).flatten = _
  rw [List.map_map]
  rfl

theorem find?_mem_of_mem (p : Gateway → Bool) (l : List Gateway) (a : Gateway)
    (ha : a ∈ l) (hp : p a = true) :
    ∃ x, l.find? p = some x ∧ x ∈ l ∧ p x = true := by
  induction l with
  | nil => cases ha
  | cons y t ih =>
    by_cases hy : p y = true
    · exact ⟨y, by simp [List.find?_cons, hy], List.mem_cons_self y t, hy⟩
    · rcases List.mem_cons.mp ha with he | he
      · exact absurd (he ▸ hp) hy
      · obtain ⟨x, h1, h2, h3⟩ := ih he
        exact ⟨x, by simp [List.find?_cons, hy, h1], List.mem_cons_of_mem y h2, h3⟩

theorem find?_append_some (p : Gateway → Bool) (l1 l2 : List Gateway) (x : Gateway)
    (h : l1.find? p = some x) : (l1 ++ l2).find? p = some x := by
  induction l1 with
  | nil => cases h
  | cons y t ih =>
    rw [List.cons_append]
    by_cases hy : p y = true
    · rw [List.find?_cons_of_pos _ hy] at h
      rw [List.find?_cons_of_pos _ hy]
      exact h
    · rw [List.find?_cons_of_neg _ hy] at h
      rw [List.find?_cons_of_neg _ hy]
      exact ih h

/-! ## Claim C3 — priority monotonicity of the ranking -/

/-- C3: if priority[i] is the first pattern matching g and priority[j] the
first matching h with i < j, and both candidates survive the select and
disable filters, then g precedes h in the ranked list get_defaults returns,
and whatever (boolean) liveness test the reconciler then applies, if it
passes g it cannot end up picking h — irrespective of the timestamps.
The liveness test is a parameter because daemon.default_test itself cannot
return True (see the C2 theorem). -/
theorem c3_priority_monotonicity (config : Config) (state : State) (select : GatewaySelect)
    (g h : Gateway) (i j : Nat)
    (hgmem : g ∈ state.gateways) (hhmem : h ∈ state.gateways)
    (hgsel : select.matches g = true) (hhsel : select.matches h = true)
    (hgen : enabled_filter state g = true) (hhen : enabled_filter state h = true)
    (hgi : firstMatchIdx config.priority g = some i)
    (hhj : firstMatchIdx config.priority h = some j)
    (hij : i < j)
    (live : Gateway → Bool) (hlg : live g = true) (_hlh : live h = true) :
    [g, h].Sublist (get_defaults config state select) ∧
      (get_defaults config state select).find? live ≠ some h := by
  have hbg : bucketIndex config.priority g = i := bucketIndex_eq_of_firstMatch _ _ _ hgi
  have hbh : bucketIndex config.priority h = j := bucketIndex_eq_of_firstMatch _ _ _ hhj
  have hjlen : j < config.priority.length := firstMatchIdx_lt_length _ _ _ hhj
  have hgd : g ∈ filteredDefaults state select := by
    unfold filteredDefaults
    exact List.mem_filter.mpr ⟨List.mem_filter.mpr ⟨hgmem, hgsel⟩, hgen⟩
  have hhd : h ∈ filteredDefaults state select := by
    unfold filteredDefaults
    exact List.mem_filter.mpr ⟨List.mem_filter.mpr ⟨hhmem, hhsel⟩, hhen⟩
  set n := config.priority.length with hn
  set f : Nat → List Gateway := fun b =>
    sortByTsDesc ((filteredDefaults state select).filter
      (fun x => bucketIndex config.priority x == b)) with hf
  have hsplit : List.range (n + 1) = List.range j ++ (List.range (n + 1 - j)).map (j + ·) := by
    have he : n + 1 = j + (n + 1 - j) := by omega
    conv_lhs => rw [he]
    rw [List.range_add]
  have hout : get_defaults config state select =
      ((List.range j).map f).flatten ++ (((List.range (n + 1 - j)).map (j + ·)).map f).flatten := by
    rw [get_defaults_blocks, hsplit, List.map_append, List.flatten_append]
  have hgf : g ∈ f i := by
    show g ∈ sortByTsDesc ((filteredDefaults state select).filter
      (fun x => bucketIndex config.priority x == i))
    rw [mem_sortByTsDesc]
    exact List.mem_filter.mpr ⟨hgd, by simp [hbg]⟩
  have hhf : h ∈ f j := by
    show h ∈ sortByTsDesc ((filteredDefaults state select).filter
      (fun x => bucketIndex config.priority x == j))
    rw [mem_sortByTsDesc]
    exact List.mem_filter.mpr ⟨hhd, by simp [hbh]⟩
  have hgpre : g ∈ ((List.range j).map f).flatten := by
    apply List.mem_flatten.mpr
    exact ⟨f i, List.mem_map.mpr ⟨i, List.mem_range.mpr hij, rfl⟩, hgf⟩
  have hhsuf : h ∈ (((List.range (n + 1 - j)).map (j + ·)).map f).flatten := by
    apply List.mem_flatten.mpr
    refine ⟨f j, List.mem_map.mpr ⟨j, ?_, rfl⟩, hhf⟩
    apply List.mem_map.mpr
    refine ⟨0, List.mem_range.mpr (by omega), ?_⟩
    simp
  have hhnotpre : h ∉ ((List.range j).map f).flatten := by
    intro hmem
    rcases List.mem_flatten.mp hmem with ⟨blk, hblk, hhin⟩
    rcases List.mem_map.mp hblk with ⟨i2, hi2, hfeq⟩
    rw [← hfeq] at hhin
    have hhin2 : h ∈ sortByTsDesc ((filteredDefaults state select).filter
        (fun x => bucketIndex config.priority x == i2)) := hhin
    rw [mem_sortByTsDesc] at hhin2
    have hdec := (List.mem_filter.mp hhin2).2
    have hbi2 : bucketIndex config.priority h = i2 := by simpa using hdec
    rw [hbh] at hbi2
    have hi2j := List.mem_range.mp hi2
    omega
  constructor
  · rw [hout]
    exact List.Sublist.append (List.singleton_sublist.mpr hgpre)
      (List.singleton_sublist.mpr hhsuf)
  · rw [hout]
    obtain ⟨x, hx1, hx2, _⟩ := find?_mem_of_mem live _ g hgpre hlg
    rw [find?_append_some live _ _ x hx1]
    intro hcontra
    have hxh : x = h := by injection hcontra
    rw [hxh] at hx2
    exact hhnotpre hx2

def c3_config : Config := ⟨[{ protocol := some "static" }, { protocol := some "dhcp" }]⟩

def c3_g : Gateway := ⟨.inet, "em1", "static", ⟨false, 167772417⟩, 100⟩

def c3_h : Gateway := ⟨.inet, "em0", "dhcp", ⟨false, 167772161⟩, 200⟩

def c3_state : State := { gateways := [c3_h, c3_g], disabled := [] }

theorem c3_priority_monotonicity_witness :
    (c3_g ∈ c3_state.gateways ∧ c3_h ∈ c3_state.gateways ∧
      GatewaySelect.matches {} c3_g = true ∧ GatewaySelect.matches {} c3_h = true ∧
      enabled_filter c3_state c3_g = true ∧ enabled_filter c3_state c3_h = true ∧
      firstMatchIdx c3_config.priority c3_g = some 0 ∧
      firstMatchIdx c3_config.priority c3_h = some 1 ∧ 0 < 1) ∧
    ([c3_g, c3_h].Sublist (get_defaults c3_config c3_state {}) ∧
      (get_defaults c3_config c3_state {}).find? (fun _ => true) ≠ some c3_h) :=
  ⟨⟨by decide, by decide, by decide, by decide, by decide, by decide, by decide, by decide,
      by decide⟩,
    c3_priority_monotonicity c3_config c3_state {} c3_g c3_h 0 1
      (by decide) (by decide) (by decide) (by decide) (by decide) (by decide)
      (by decide) (by decide) (by decide) (fun _ => true) rfl rfl⟩

/-! ## Claim C5 — determinism and the tie-break order -/

def c5_gA : Gateway := ⟨.inet, "em0", "dhcp", ⟨false, 167772161⟩, 100⟩

def c5_gB : Gateway := ⟨.inet, "em1", "dhcp", ⟨false, 167772417⟩, 100⟩

def c5_state : State := { gateways := [c5_gB, c5_gA], disabled := [] }

/-- C5 counterexample: two equal-timestamp candidates in the same (overflow)
bucket leave get_defaults in the candidate list's iteration order, not in
lexicographic (link name, protocol, address bytes) order: with iteration
order [em1 candidate, em0 candidate] the em1 candidate is ranked first even
though the em0 candidate is lexicographically smaller. -/
theorem c5_tiebreak_counterexample :
    get_defaults {} c5_state {} = [c5_gB, c5_gA] ∧
    claimedTieKeyLt c5_gA c5_gB ∧
    c5_gA.ts = c5_gB.ts ∧
    bucketIndex ({} : Config).priority c5_gA = bucketIndex ({} : Config).priority c5_gB := by
  refine ⟨by decide, ?_, rfl, rfl⟩
  exact Or.inl (by decide)

/-- C5 amended: get_defaults is a deterministic pure function of the
candidate list in set-iteration order, the disable set, the priority list
and nothing else; two candidates with equal timestamps in the same priority
bucket that both survive the select and disable filters keep their relative
iteration order in the ranked output (Python's sort is stable and no
lexicographic tie-break is applied). -/
theorem c5_selector_stable_ties (config : Config) (state : State) (select : GatewaySelect)
    (g h : Gateway)
    (hts : g.ts = h.ts)
    (hb : bucketIndex config.priority g = bucketIndex config.priority h)
    (hsub : [g, h].Sublist state.gateways)
    (hgsel : select.matches g = true) (hhsel : select.matches h = true)
    (hgen : enabled_filter state g = true) (hhen : enabled_filter state h = true) :
    [g, h].Sublist (get_defaults config state select) := by
  have hs1 : [g, h].Sublist (filteredDefaults state select) := by
    have f1 := hsub.filter (fun x => GatewaySelect.matches select x)
    rw [show List.filter (fun x => GatewaySelect.matches select x) [g, h] = [g, h] from by
      simp [List.filter_cons, hgsel, hhsel]] at f1
    have f2 := f1.filter (fun x => enabled_filter state x)
    rw [show List.filter (fun x => enabled_filter state x) [g, h] = [g, h] from by
      simp [List.filter_cons, hgen, hhen]] at f2
    exact f2
  have hs2 : [g, h].Sublist ((filteredDefaults state select).filter
      (fun x => bucketIndex config.priority x == bucketIndex config.priority g)) := by
    have f3 := hs1.filter (fun x => bucketIndex config.priority x == bucketIndex config.priority g)
    rw [show List.filter
        (fun x => bucketIndex config.priority x == bucketIndex config.priority g) [g, h] = [g, h] from by
      simp [List.filter_cons, ← hb]] at f3
    exact f3
  have hs3 : [g, h].Sublist (sortByTsDesc ((filteredDefaults state select).filter
      (fun x => bucketIndex config.priority x == bucketIndex config.priority g))) := by
    have f4 := hs2.filter (fun x => default_sort_strategy x == g.ts)
    rw [show List.filter (fun x => default_sort_strategy x == g.ts) [g, h] = [g, h] from by
      simp [List.filter_cons, default_sort_strategy, hts]] at f4
    have f5 : [g, h].Sublist (tsFilter g.ts (sortByTsDesc ((filteredDefaults state select).filter
        (fun x => bucketIndex config.priority x == bucketIndex config.priority g)))) := by
      rw [sortByTsDesc_tsFilter]
      exact f4
    exact f5.trans (List.filter_sublist _)
  rw [get_defaults_blocks]
  refine hs3.trans (sublist_flatten_of_mem ?_)
  apply List.mem_map.mpr
  exact ⟨bucketIndex config.priority g,
    List.mem_range.mpr (Nat.lt_succ_of_le (bucketIndex_le_length _ _)), rfl⟩

theorem c5_selector_stable_ties_witness :
    (c5_gB.ts = c5_gA.ts ∧
      bucketIndex ({} : Config).priority c5_gB = bucketIndex ({} : Config).priority c5_gA ∧
      [c5_gB, c5_gA].Sublist c5_state.gateways ∧
      GatewaySelect.matches {} c5_gB = true ∧ GatewaySelect.matches {} c5_gA = true ∧
      enabled_filter c5_state c5_gB = true ∧ enabled_filter c5_state c5_gA = true) ∧
    [c5_gB, c5_gA].Sublist (get_defaults {} c5_state {}) :=
  ⟨⟨rfl, rfl, List.Sublist.refl _, by decide, by decide, by decide, by decide⟩,
    c5_selector_stable_ties {} c5_state {} c5_gB c5_gA rfl rfl (List.Sublist.refl _)
      (by decide) (by decide) (by decide) (by decide)⟩
